import Mathlib

/-!
Verification model of the revbot webhook-processing core.

The definitions below are a shallow embedding of the Rust sources
src/gitlab/common.rs, src/gitlab/client.rs and src/gitlab/webhook.rs:

- Rust structs become Lean structures with the same field names
  (u64 fields become Nat; DateTime fields are carried as String).
- The network-facing GitlabClient is embedded by passing the outcomes of
  its two endpoint queries explicitly (GitlabEnv); a call that the Rust
  code performs is recorded in a List Call so that "which lookups ran"
  is observable.
- A Rust function that can panic (unwrap on a failed query) is embedded
  with an outer Option layer: none models the panic (the call never
  returns), some x models a normal return of x.
- serde_json decoding of the webhook payload is embedded over a small
  JSON value type; the two parse stages of process_webhook
  (String::from_utf8, then serde_json::from_str) are reflected in the
  RawPayload type.
-/

/-- StatusState, re-exported from the gitlab crate in common.rs: the closed
set of pipeline statuses. -/
inductive StatusState where
  | created
  | waitingForResource
  | preparing
  | pending
  | running
  | success
  | failed
  | canceled
  | skipped
  | manual
  | scheduled
deriving DecidableEq

/-- MergeStatus, re-exported from the gitlab crate in common.rs; carried by
merge-request attributes but never branched on. -/
inductive MergeStatus where
  | unchecked
  | checking
  | canBeMerged
  | cannotBeMerged
  | cannotBeMergedRecheck
deriving DecidableEq

/-- User from common.rs. -/
structure User where
  email : String
  id : Nat
  name : String
  username : String

/-- The PartialEq impl for User in common.rs lines 14-18: equality is by id
only. -/
def User.eq (a other : User) : Bool :=
  a.id == other.id

/-- Rust comparisons on User (Vec::contains in get_new_assignees) go through
the PartialEq impl, i.e. User.eq. -/
instance : BEq User := ⟨User.eq⟩

/-- UserBasic from common.rs. -/
structure UserBasic where
  id : Nat
  username : String
  web_url : String

/-- MergeRequestAttributes from common.rs. -/
structure MergeRequestAttributes where
  action : Option String
  iid : Nat
  merge_status : MergeStatus
  title : String
  url : String

/-- PipelineAttributes from common.rs (the serde-renamed ref field keeps the
Rust field name ref_). -/
structure PipelineAttributes where
  finished_at : Option String
  id : Nat
  ref_ : String
  status : StatusState

/-- Project from common.rs. -/
structure Project where
  id : Nat
  name : String
  path_with_namespace : String
  web_url : String

/-- Pipeline from common.rs: the shape returned by the pipeline-detail API
lookup. -/
structure Pipeline where
  ref_ : String
  status : StatusState
  web_url : String

/-- MergeRequest from common.rs: the shape returned by the merge-request
detail API lookup (DateTime fields carried as String). -/
structure MergeRequest where
  title : String
  created_at : String
  updated_at : String
  author : UserBasic
  assignees : Option (List UserBasic)
  reviewers : Option (List UserBasic)
  id : Nat
  iid : Nat
  merge_status : String
  work_in_progress : Bool
  web_url : String
  pipeline : Option Pipeline

/-- Modelled from the spec: the Message record of the missing src/message.rs
(the spec's Notification {recipientEmail, body}); its construction shape
Message { recipient_email, message } is visible in webhook.rs. -/
structure Message where
  recipient_email : String
  message : String
deriving DecidableEq

/-- AssigneeChanges from webhook.rs. -/
structure AssigneeChanges where
  current : List User
  previous : List User

/-- Changes from webhook.rs. -/
structure Changes where
  assignees : Option AssigneeChanges

/-- MergeRequestWebhook from webhook.rs. -/
structure MergeRequestWebhook where
  assignees : Option (List User)
  changes : Option Changes
  merge_request : MergeRequestAttributes
  project : Project
  user : User

/-- PipelineWebhook from webhook.rs. -/
structure PipelineWebhook where
  merge_request : Option MergeRequestAttributes
  pipeline : PipelineAttributes
  project : Project
  user : User

/-- The internally tagged Webhook enum from webhook.rs. -/
inductive Webhook where
  | mergeRequest (w : MergeRequestWebhook)
  | pipeline (w : PipelineWebhook)

/-- MergeRequestWebhook::get_assignee_changes from webhook.rs lines 55-65. -/
def MergeRequestWebhook.get_assignee_changes (w : MergeRequestWebhook) :
    Option AssigneeChanges :=
  match w.changes with
  | some changes =>
    match changes.assignees with
    | some assignee_changes => some assignee_changes
    | none => none
  | none => none

/-- The environment a GitlabClient runs against: the responses the two
endpoint queries of client.rs would observe from the network, indexed the
way the code indexes them (project id and pipeline id, resp. project id and
merge-request iid). -/
structure GitlabEnv where
  pipelineQuery : Nat → Nat → Except String Pipeline
  mergeRequestQuery : Nat → Nat → Except String MergeRequest

/-- GitlabClient::get_pipeline_details from client.rs lines 30-40. The Rust
body unwraps the query result, so a failed query panics instead of
producing the None of its Option return type: the outer Option models
normal return (some) versus that panic (none); the inner Option is the
function's own Option return, which the code only ever fills with Some. -/
def get_pipeline_details (env : GitlabEnv) (project_id pipeline_id : Nat) :
    Option (Option Pipeline) :=
  match env.pipelineQuery project_id pipeline_id with
  | Except.ok pipeline => some (some pipeline)
  | Except.error _ => none

/-- GitlabClient::get_merge_request_details from client.rs lines 42-53,
embedded exactly like get_pipeline_details (unwrap on the query result). -/
def get_merge_request_details (env : GitlabEnv) (project_id merge_request_iid : Nat) :
    Option (Option MergeRequest) :=
  match env.mergeRequestQuery project_id merge_request_iid with
  | Except.ok merge_request => some (some merge_request)
  | Except.error _ => none

/-- One outbound API call performed by the processing code. -/
inductive Call where
  | pipelineDetail (project_id pipeline_id : Nat)
  | mergeRequestDetail (project_id merge_request_iid : Nat)
deriving DecidableEq

/-- Tests whether a recorded call is a merge-request detail lookup. -/
def Call.is_merge_request_detail : Call → Bool
  | Call.mergeRequestDetail _ _ => true
  | Call.pipelineDetail _ _ => false

/-- get_new_assignees from webhook.rs lines 85-92: keep the current
assignees not contained (under the id-based PartialEq) in previous. -/
def get_new_assignees (assignee_changes : AssigneeChanges) : List User :=
  assignee_changes.current.filter
    (fun assignee => !(assignee_changes.previous.contains assignee))

/-- process_new_assignee from webhook.rs lines 94-112. The body string is
the format! literal of lines 100-106 (the source file carries the marker
characters in their mojibake form; they are reproduced byte-for-byte). -/
def process_new_assignee (new_assignee : User) (webhook : MergeRequestWebhook) :
    Option Message :=
  some
    { recipient_email := new_assignee.email
      message :=
        "[!" ++ toString webhook.merge_request.iid ++ " " ++
        webhook.merge_request.title ++ "](" ++ webhook.merge_request.url ++
        ") ([" ++ webhook.project.name ++ "](" ++ webhook.project.web_url ++
        ")) by @" ++ webhook.user.username ++
        " ðŸ¤© Added as assignee" }

/-- The status match of process_pipeline_status (webhook.rs lines 120-125):
the fixed partial marker table. -/
def statusText (status : StatusState) : Option String :=
  match status with
  | StatusState.success => some "ðŸŒž Success"
  | StatusState.failed => some "â›ˆï¸ Failed"
  | StatusState.running => some "â³ Running"
  | _ => none

/-- process_pipeline_status from webhook.rs lines 114-147, with the call
trace made explicit. The outer Option of the result's first component
models a panic escaping from an unwrapped failed lookup; some none is the
early None return of the question-mark operator; the match cascade follows
the source order: status marker, pipeline-detail lookup, merge-request
reference, merge-request detail lookup. -/
def process_pipeline_status (webhook : PipelineWebhook) (env : GitlabEnv) :
    Option (Option Message) × List Call :=
  match statusText webhook.pipeline.status with
  | none => (some none, [])
  | some status_text =>
    match get_pipeline_details env webhook.project.id webhook.pipeline.id with
    | none => (none, [Call.pipelineDetail webhook.project.id webhook.pipeline.id])
    | some none => (some none, [Call.pipelineDetail webhook.project.id webhook.pipeline.id])
    | some (some pipeline_details) =>
      match webhook.merge_request with
      | none => (some none, [Call.pipelineDetail webhook.project.id webhook.pipeline.id])
      | some mr_attributes =>
        match get_merge_request_details env webhook.project.id mr_attributes.iid with
        | none =>
          (none,
           [Call.pipelineDetail webhook.project.id webhook.pipeline.id,
            Call.mergeRequestDetail webhook.project.id mr_attributes.iid])
        | some none =>
          (some none,
           [Call.pipelineDetail webhook.project.id webhook.pipeline.id,
            Call.mergeRequestDetail webhook.project.id mr_attributes.iid])
        | some (some merge_request) =>
          (some (some
            { recipient_email := webhook.user.email
              message :=
                "[!" ++ toString merge_request.iid ++ " " ++ merge_request.title ++
                "](" ++ merge_request.web_url ++ ") ([" ++ webhook.project.name ++
                "](" ++ webhook.project.web_url ++ ")) [#" ++
                toString webhook.pipeline.id ++ "](" ++ pipeline_details.web_url ++
                ") " ++ status_text }),
           [Call.pipelineDetail webhook.project.id webhook.pipeline.id,
            Call.mergeRequestDetail webhook.project.id mr_attributes.iid])

/-- The error values that can flow out of process_webhook: the FromUtf8Error
propagated on line 171 and the UnsupportedWebhook of line 172 (the
notification-producing rules themselves construct no error). -/
inductive WebhookError where
  | fromUtf8
  | unsupportedWebhook
deriving DecidableEq

/-- process_merge_request from webhook.rs lines 149-160: collect one message
per new assignee (process_new_assignee is total in Some, the if-let mirror
is filterMap), always returning Ok. -/
def process_merge_request (webhook : MergeRequestWebhook) :
    Except WebhookError (List Message) :=
  Except.ok
    (match webhook.get_assignee_changes with
     | some assignee_changes =>
       (get_new_assignees assignee_changes).filterMap
         (fun new_assignee => process_new_assignee new_assignee webhook)
     | none => [])

/-- process_pipeline from webhook.rs lines 162-168: wrap the optional
message in an always-Ok list; a panic (outer none) propagates. -/
def process_pipeline (webhook : PipelineWebhook) (env : GitlabEnv) :
    Option (Except WebhookError (List Message)) × List Call :=
  match process_pipeline_status webhook env with
  | (none, calls) => (none, calls)
  | (some none, calls) => (some (Except.ok []), calls)
  | (some (some message), calls) => (some (Except.ok [message]), calls)

/-- A JSON value, the shape serde_json parses payload text into (numbers are
modelled as integers; the payloads of interest carry only integral
numbers). -/
inductive JsonValue where
  | null
  | bool (b : Bool)
  | num (n : Int)
  | str (s : String)
  | arr (elements : List JsonValue)
  | obj (fields : List (String × JsonValue))

/-- Object field lookup, as serde performs it while deserializing a struct
from a JSON map. -/
def JsonValue.get (j : JsonValue) (key : String) : Option JsonValue :=
  match j with
  | JsonValue.obj fields => fields.lookup key
  | _ => none

/-- serde deserialization of a String field. -/
def decodeString : JsonValue → Option String
  | JsonValue.str s => some s
  | _ => none

/-- serde deserialization of a u64 field: an integral number in range. -/
def decodeU64 : JsonValue → Option Nat
  | JsonValue.num n => if 0 ≤ n ∧ n < 2 ^ 64 then some n.toNat else none
  | _ => none

/-- Decode a required struct field: the key must be present and its value
must decode. -/
def decodeField (dec : JsonValue → Option α) (j : JsonValue) (key : String) :
    Option α :=
  (j.get key).bind dec

/-- Decode an Option-typed struct field, serde-style: a missing key or an
explicit null is None; a present value that fails to decode is an error. -/
def decodeOptField (dec : JsonValue → Option α) (j : JsonValue) (key : String) :
    Option (Option α) :=
  match j.get key with
  | none => some none
  | some JsonValue.null => some none
  | some v => (dec v).map some

/-- serde deserialization of a Vec field. -/
def decodeList (dec : JsonValue → Option α) : JsonValue → Option (List α)
  | JsonValue.arr elements => elements.mapM dec
  | _ => none

/-- serde deserialization of User (derived in common.rs). -/
def decodeUser (j : JsonValue) : Option User := do
  let email ← decodeField decodeString j "email"
  let id ← decodeField decodeU64 j "id"
  let name ← decodeField decodeString j "name"
  let username ← decodeField decodeString j "username"
  some { email, id, name, username }

/-- serde deserialization of the gitlab crate's MergeStatus (snake_case
strings). -/
def decodeMergeStatus (j : JsonValue) : Option MergeStatus :=
  match j with
  | JsonValue.str "unchecked" => some MergeStatus.unchecked
  | JsonValue.str "checking" => some MergeStatus.checking
  | JsonValue.str "can_be_merged" => some MergeStatus.canBeMerged
  | JsonValue.str "cannot_be_merged" => some MergeStatus.cannotBeMerged
  | JsonValue.str "cannot_be_merged_recheck" => some MergeStatus.cannotBeMergedRecheck
  | _ => none

/-- serde deserialization of the gitlab crate's StatusState (snake_case
strings). -/
def decodeStatusState (j : JsonValue) : Option StatusState :=
  match j with
  | JsonValue.str "created" => some StatusState.created
  | JsonValue.str "waiting_for_resource" => some StatusState.waitingForResource
  | JsonValue.str "preparing" => some StatusState.preparing
  | JsonValue.str "pending" => some StatusState.pending
  | JsonValue.str "running" => some StatusState.running
  | JsonValue.str "success" => some StatusState.success
  | JsonValue.str "failed" => some StatusState.failed
  | JsonValue.str "canceled" => some StatusState.canceled
  | JsonValue.str "skipped" => some StatusState.skipped
  | JsonValue.str "manual" => some StatusState.manual
  | JsonValue.str "scheduled" => some StatusState.scheduled
  | _ => none

/-- serde deserialization of MergeRequestAttributes (derived in common.rs). -/
def decodeMergeRequestAttributes (j : JsonValue) : Option MergeRequestAttributes := do
  let action ← decodeOptField decodeString j "action"
  let iid ← decodeField decodeU64 j "iid"
  let merge_status ← decodeField decodeMergeStatus j "merge_status"
  let title ← decodeField decodeString j "title"
  let url ← decodeField decodeString j "url"
  some { action, iid, merge_status, title, url }

/-- serde deserialization of PipelineAttributes (derived in common.rs; the
ref_ field reads the renamed key "ref"). -/
def decodePipelineAttributes (j : JsonValue) : Option PipelineAttributes := do
  let finished_at ← decodeOptField decodeString j "finished_at"
  let id ← decodeField decodeU64 j "id"
  let ref_ ← decodeField decodeString j "ref"
  let status ← decodeField decodeStatusState j "status"
  some { finished_at, id, ref_, status }

/-- serde deserialization of Project (derived in common.rs). -/
def decodeProject (j : JsonValue) : Option Project := do
  let id ← decodeField decodeU64 j "id"
  let name ← decodeField decodeString j "name"
  let path_with_namespace ← decodeField decodeString j "path_with_namespace"
  let web_url ← decodeField decodeString j "web_url"
  some { id, name, path_with_namespace, web_url }

/-- serde deserialization of AssigneeChanges (derived in webhook.rs). -/
def decodeAssigneeChanges (j : JsonValue) : Option AssigneeChanges := do
  let current ← decodeField (decodeList decodeUser) j "current"
  let previous ← decodeField (decodeList decodeUser) j "previous"
  some { current, previous }

/-- serde deserialization of Changes (derived in webhook.rs). -/
def decodeChanges (j : JsonValue) : Option Changes := do
  let assignees ← decodeOptField decodeAssigneeChanges j "assignees"
  some { assignees }

/-- serde deserialization of MergeRequestWebhook (derived in webhook.rs; the
merge_request field reads the renamed key "object_attributes"). -/
def decodeMergeRequestWebhook (j : JsonValue) : Option MergeRequestWebhook := do
  let assignees ← decodeOptField (decodeList decodeUser) j "assignees"
  let changes ← decodeOptField decodeChanges j "changes"
  let merge_request ← decodeField decodeMergeRequestAttributes j "object_attributes"
  let project ← decodeField decodeProject j "project"
  let user ← decodeField decodeUser j "user"
  some { assignees, changes, merge_request, project, user }

/-- serde deserialization of PipelineWebhook (derived in webhook.rs; the
pipeline field reads the renamed key "object_attributes"). -/
def decodePipelineWebhook (j : JsonValue) : Option PipelineWebhook := do
  let merge_request ← decodeOptField decodeMergeRequestAttributes j "merge_request"
  let pipeline ← decodeField decodePipelineAttributes j "object_attributes"
  let project ← decodeField decodeProject j "project"
  let user ← decodeField decodeUser j "user"
  some { merge_request, pipeline, project, user }

/-- serde deserialization of the internally tagged Webhook enum of
webhook.rs lines 78-83: select the variant by the "object_kind"
discriminator; anything else fails. -/
def decodeWebhook (j : JsonValue) : Option Webhook :=
  match j.get "object_kind" with
  | some (JsonValue.str "merge_request") =>
    (decodeMergeRequestWebhook j).map Webhook.mergeRequest
  | some (JsonValue.str "pipeline") =>
    (decodePipelineWebhook j).map Webhook.pipeline
  | _ => none

/-- The inbound payload as seen through the two parse stages of
process_webhook: bytes that String::from_utf8 rejects, UTF-8 text that is
not JSON, or a parsed JSON value. -/
inductive RawPayload where
  | invalidUtf8
  | invalidJson
  | json (j : JsonValue)

/-- process_webhook from webhook.rs lines 170-182. Invalid UTF-8 propagates
the FromUtf8Error of line 171; a payload serde cannot decode into Webhook
is collapsed to UnsupportedWebhook on line 172 (the Value re-parse of line
173 only executes once the Webhook parse has succeeded, so its unwrap
cannot fire); a decoded event is dispatched to its composer. -/
def process_webhook (payload : RawPayload) (env : GitlabEnv) :
    Option (Except WebhookError (List Message)) × List Call :=
  match payload with
  | RawPayload.invalidUtf8 => (some (Except.error WebhookError.fromUtf8), [])
  | RawPayload.invalidJson => (some (Except.error WebhookError.unsupportedWebhook), [])
  | RawPayload.json j =>
    match decodeWebhook j with
    | none => (some (Except.error WebhookError.unsupportedWebhook), [])
    | some (Webhook.mergeRequest webhook) => (some (process_merge_request webhook), [])
    | some (Webhook.pipeline webhook) => process_pipeline webhook env

/-- Sample user from the webhook.rs test payloads. -/
def userH : User :=
  { email := "hds@example.com", id := 1069, name := "Hayden Stainsby", username := "hds-" }

/-- Sample project from the webhook.rs test payloads. -/
def projP : Project :=
  { id := 17898, name := "mr-test", path_with_namespace := "hds-/mr-test",
    web_url := "https://gitlab.com/hds-/mr-test" }

/-- Sample merge-request attributes from the webhook.rs test payloads. -/
def mrAttrsP : MergeRequestAttributes :=
  { action := none, iid := 3, merge_status := MergeStatus.unchecked,
    title := "Fail pipeline",
    url := "https://gitlab.com/hds-/mr-test/-/merge_requests/3" }

/-- Sample running-pipeline attributes from the webhook.rs test payloads. -/
def pipeAttrsRunning : PipelineAttributes :=
  { finished_at := none, id := 4038106, ref_ := "fail-pipeline",
    status := StatusState.running }

/-- A pipeline webhook with no linked merge request. -/
def wNoMR : PipelineWebhook :=
  { merge_request := none, pipeline := pipeAttrsRunning, project := projP, user := userH }

/-- A pipeline webhook with a linked merge request. -/
def wMR : PipelineWebhook :=
  { merge_request := some mrAttrsP, pipeline := pipeAttrsRunning, project := projP,
    user := userH }

/-- The same pipeline webhook with a status outside the marker table. -/
def wPend : PipelineWebhook :=
  { wMR with pipeline := { pipeAttrsRunning with status := StatusState.pending } }

/-- A pipeline-detail lookup response. -/
def pdP : Pipeline :=
  { ref_ := "fail-pipeline", status := StatusState.running, web_url := "https://x/p/9" }

/-- An author record for the merge-request detail response. -/
def authorP : UserBasic :=
  { id := 1069, username := "hds-", web_url := "https://gitlab.com/hds-" }

/-- A merge-request detail lookup response. -/
def mrDetailP : MergeRequest :=
  { title := "Fix bug", created_at := "2021-09-06T10:54:57Z",
    updated_at := "2021-09-06T10:54:57Z", author := authorP, assignees := none,
    reviewers := none, id := 289144, iid := 3, merge_status := "can_be_merged",
    work_in_progress := false, web_url := "https://x/mr/3", pipeline := none }

/-- An environment in which both lookups succeed. -/
def envOk : GitlabEnv :=
  { pipelineQuery := fun _ _ => Except.ok pdP,
    mergeRequestQuery := fun _ _ => Except.ok mrDetailP }

/-- An environment in which the pipeline-detail lookup fails with a network
error. -/
def envFail : GitlabEnv :=
  { pipelineQuery := fun _ _ => Except.error "network error",
    mergeRequestQuery := fun _ _ => Except.ok mrDetailP }

/-- Sample assignee. -/
def userA : User := { email := "a@x", id := 1, name := "Alice", username := "alice" }

/-- Sample assignee. -/
def userB : User := { email := "b@x", id := 2, name := "Bob", username := "bob" }

/-- A record sharing userB's id with different other fields. -/
def userB2 : User := { email := "b@x", id := 2, name := "Bobby", username := "bobby" }

/-- Sample assignee. -/
def userC : User := { email := "c@x", id := 3, name := "Cara", username := "cara" }

/-- An assignee snapshot with two newly added assignees. -/
def acW : AssigneeChanges := { current := [userA, userB, userC], previous := [userA] }

/-- A merge-request webhook carrying the acW snapshot. -/
def wMRW : MergeRequestWebhook :=
  { assignees := none, changes := some { assignees := some acW },
    merge_request := mrAttrsP, project := projP, user := userH }

/-- An assignee snapshot whose current list holds two records with the same
id, absent from previous. -/
def acDup : AssigneeChanges := { current := [userB, userB2], previous := [userA] }

/-- A merge-request webhook carrying the duplicate snapshot. -/
def wDup : MergeRequestWebhook :=
  { assignees := none, changes := some { assignees := some acDup },
    merge_request := mrAttrsP, project := projP, user := userH }

/-- A JSON payload whose discriminator names no known variant. -/
def jUnknownKind : JsonValue :=
  JsonValue.obj [("object_kind", JsonValue.str "push")]

/-- Containment of a User in a list under the id-based PartialEq coincides
with containment of its id in the list of ids. -/
theorem contains_eq_id_contains (prev : List User) (u : User) :
    prev.contains u = (prev.map User.id).contains u.id := by
  induction prev with
  | nil => rfl
  | cons p ps ih =>
    rw [List.map_cons, List.contains_cons, List.contains_cons, ih]
    rfl

/-- A user whose id is absent from every element of a list is not contained
in it under the id-based PartialEq. -/
theorem contains_id_false (prev : List User) (i : Nat)
    (hi : ∀ p ∈ prev, p.id ≠ i) (u : User) (hu : u.id = i) :
    prev.contains u = false := by
  rw [contains_eq_id_contains, hu]
  induction prev with
  | nil => rfl
  | cons p ps ih =>
    have hp : p.id ≠ i := hi p (List.mem_cons_self p ps)
    rw [List.map_cons, List.contains_cons, ih fun q hq => hi q (List.mem_cons_of_mem p hq)]
    simp [Ne.symm hp]

/-- Claim C1: get_new_assignees returns exactly the users of current whose
id does not occur among the ids of previous, preserving current's relative
order (filter keeps order); being a plain function of the snapshot, it is
pure. -/
theorem get_new_assignees_spec (ac : AssigneeChanges) :
    get_new_assignees ac =
      ac.current.filter (fun u => !((ac.previous.map User.id).contains u.id)) := by
  unfold get_new_assignees
  apply List.filter_congr
  intro u _
  rw [contains_eq_id_contains]

/-- Claim C9: User equality is by id only — User.eq holds exactly when the
ids agree, whatever the other fields hold — and the diff's membership test
(List.contains under that equality) cannot tell two users with the same id
apart. -/
theorem user_eq_by_id :
    (∀ u v : User, User.eq u v = true ↔ u.id = v.id) ∧
    (∀ (prev : List User) (u v : User), u.id = v.id →
      prev.contains u = prev.contains v) := by
  constructor
  · intro u v
    simp [User.eq]
  · intro prev u v h
    rw [contains_eq_id_contains, contains_eq_id_contains, h]

/-- Witness for C9 at concrete users: userB and userB2 differ in every field
but id, yet compare equal and are interchangeable in membership tests. -/
theorem user_eq_by_id_witness :
    User.eq userB userB2 = true ∧ [userB].contains userB2 = [userB].contains userB :=
  ⟨(user_eq_by_id.1 userB userB2).mpr rfl,
   user_eq_by_id.2 [userB] userB2 userB rfl⟩

/-- Claim C2: a pipeline event with a notification-worthy status, a linked
merge-request iid, and two successful enrichment lookups yields exactly one
notification, addressed to the triggering user's email, whose body embeds
the enriched MR iid, title and url, the project name and url, the pipeline
id and url, and the status marker; exactly the two sequential lookups run. -/
theorem pipeline_notification (w : PipelineWebhook) (env : GitlabEnv)
    (mr_attributes : MergeRequestAttributes) (pipeline_details : Pipeline)
    (mr : MergeRequest)
    (hstatus : w.pipeline.status = StatusState.success ∨
      w.pipeline.status = StatusState.failed ∨
      w.pipeline.status = StatusState.running)
    (hmr : w.merge_request = some mr_attributes)
    (hpq : env.pipelineQuery w.project.id w.pipeline.id = Except.ok pipeline_details)
    (hmq : env.mergeRequestQuery w.project.id mr_attributes.iid = Except.ok mr) :
    ∃ marker, statusText w.pipeline.status = some marker ∧
      process_pipeline w env =
        (some (Except.ok
          [{ recipient_email := w.user.email
             message :=
               "[!" ++ toString mr.iid ++ " " ++ mr.title ++ "](" ++ mr.web_url ++
               ") ([" ++ w.project.name ++ "](" ++ w.project.web_url ++ ")) [#" ++
               toString w.pipeline.id ++ "](" ++ pipeline_details.web_url ++
               ") " ++ marker }]),
         [Call.pipelineDetail w.project.id w.pipeline.id,
          Call.mergeRequestDetail w.project.id mr_attributes.iid]) := by
  have hst : ∃ marker, statusText w.pipeline.status = some marker := by
    rcases hstatus with h | h | h <;> rw [h] <;> exact ⟨_, rfl⟩
  obtain ⟨marker, hm⟩ := hst
  refine ⟨marker, hm, ?_⟩
  simp only [process_pipeline, process_pipeline_status, get_pipeline_details,
    get_merge_request_details, hm, hmr, hpq, hmq]

/-- Witness for C2 at the concrete running-pipeline webhook and an
environment where both lookups succeed. -/
theorem pipeline_notification_witness :
    ∃ marker, statusText wMR.pipeline.status = some marker ∧
      process_pipeline wMR envOk =
        (some (Except.ok
          [{ recipient_email := wMR.user.email
             message :=
               "[!" ++ toString mrDetailP.iid ++ " " ++ mrDetailP.title ++ "](" ++
               mrDetailP.web_url ++ ") ([" ++ wMR.project.name ++ "](" ++
               wMR.project.web_url ++ ")) [#" ++ toString wMR.pipeline.id ++
               "](" ++ pdP.web_url ++ ") " ++ marker }]),
         [Call.pipelineDetail wMR.project.id wMR.pipeline.id,
          Call.mergeRequestDetail wMR.project.id mrAttrsP.iid]) :=
  pipeline_notification wMR envOk mrAttrsP pdP mrDetailP
    (Or.inr (Or.inr rfl)) rfl rfl rfl

/-- Claim C5: a pipeline event whose status falls outside the marker table
(not success, failed or running) yields zero notifications in every
environment, and performs no lookup at all. -/
theorem non_marker_status_silent (w : PipelineWebhook) (env : GitlabEnv)
    (h : w.pipeline.status ≠ StatusState.success ∧
      w.pipeline.status ≠ StatusState.failed ∧
      w.pipeline.status ≠ StatusState.running) :
    process_pipeline w env = (some (Except.ok []), []) := by
  obtain ⟨h1, h2, h3⟩ := h
  have hst : statusText w.pipeline.status = none := by
    cases hs : w.pipeline.status <;> simp_all [statusText]
  simp only [process_pipeline, process_pipeline_status, hst]

/-- Witness for C5 at a concrete pending-status webhook, against the
environment whose pipeline lookup fails: the enrichment outcome is
irrelevant. -/
theorem non_marker_status_silent_witness :
    process_pipeline wPend envFail = (some (Except.ok []), []) :=
  non_marker_status_silent wPend envFail ⟨by decide, by decide, by decide⟩

/-- Counterexample for C3 as stated: a running-status pipeline event with no
linked merge request yields zero notifications, but the pipeline-detail
lookup IS invoked (the code performs it, line 129, before the linked-MR
check of line 131), so the recorded call list is not empty. -/
theorem no_mr_counterexample :
    process_pipeline wNoMR envOk =
      (some (Except.ok []), [Call.pipelineDetail 17898 4038106]) ∧
    ([Call.pipelineDetail 17898 4038106] : List Call) ≠ [] :=
  ⟨rfl, by decide⟩

/-- Claim C3 amended: a pipeline event with no linked merge-request
reference never triggers the merge-request detail lookup, and whenever its
processing returns normally it returns zero notifications (the
pipeline-detail lookup, however, does run when the status is
notification-worthy). -/
theorem no_mr_amended (w : PipelineWebhook) (env : GitlabEnv)
    (h : w.merge_request = none) :
    ((process_pipeline w env).2.any Call.is_merge_request_detail) = false ∧
    (∀ r, (process_pipeline w env).1 = some r → r = Except.ok []) := by
  unfold process_pipeline process_pipeline_status
  rcases hst : statusText w.pipeline.status with _ | marker
  · simp
  · rcases hq : get_pipeline_details env w.project.id w.pipeline.id with _ | op
    · simp [Call.is_merge_request_detail]
    · rcases op with _ | pd
      · simp [Call.is_merge_request_detail]
      · rw [h]
        simp [Call.is_merge_request_detail]

/-- Witness for C3's amended claim at the concrete no-MR webhook. -/
theorem no_mr_amended_witness :
    ((process_pipeline wNoMR envOk).2.any Call.is_merge_request_detail) = false ∧
    (∀ r, (process_pipeline wNoMR envOk).1 = some r → r = Except.ok []) :=
  no_mr_amended wNoMR envOk rfl

/-- Claim C4 (code bug evidence): when the pipeline-detail query fails for
an otherwise-qualifying event, get_pipeline_details unwraps the failed
result — the call panics (outer none) instead of returning its None — and
the panic escapes process_pipeline, which therefore does not return
normally with an empty result as the spec requires. -/
theorem lookup_failure_aborts :
    get_pipeline_details envFail 17898 4038106 = none ∧
    process_pipeline wMR envFail = (none, [Call.pipelineDetail 17898 4038106]) :=
  ⟨rfl, rfl⟩

/-- Claim C6: merge-request processing emits exactly one notification per
user returned by the assignee diff — addressed to that user's email, with
the body embedding the MR iid, title and url, the project name and url,
and the acting user's handle — and an absent snapshot gives the empty
list, not an error. -/
theorem merge_request_notifications (w : MergeRequestWebhook) :
    (w.get_assignee_changes = none → process_merge_request w = Except.ok []) ∧
    (∀ ac, w.get_assignee_changes = some ac →
      process_merge_request w = Except.ok ((get_new_assignees ac).map (fun u =>
        { recipient_email := u.email
          message :=
            "[!" ++ toString w.merge_request.iid ++ " " ++
            w.merge_request.title ++ "](" ++ w.merge_request.url ++
            ") ([" ++ w.project.name ++ "](" ++ w.project.web_url ++
            ")) by @" ++ w.user.username ++
            " ðŸ¤© Added as assignee" }))) := by
  constructor
  · intro h
    simp [process_merge_request, h]
  · intro ac h
    simp only [process_merge_request, h, Except.ok.injEq]
    generalize get_new_assignees ac = l
    induction l with
    | nil => rfl
    | cons u us ih =>
      simp [List.filterMap_cons, process_new_assignee, List.map_cons]
      exact ih

/-- Witness for C6: the concrete snapshot acW adds two assignees, so the
concrete webhook wMRW yields exactly the two fully evaluated
notifications. -/
theorem merge_request_notifications_witness :
    process_merge_request wMRW = Except.ok
      [{ recipient_email := "b@x"
         message := "[!3 Fail pipeline](https://gitlab.com/hds-/mr-test/-/merge_requests/3) ([mr-test](https://gitlab.com/hds-/mr-test)) by @hds- ðŸ¤© Added as assignee" },
       { recipient_email := "c@x"
         message := "[!3 Fail pipeline](https://gitlab.com/hds-/mr-test/-/merge_requests/3) ([mr-test](https://gitlab.com/hds-/mr-test)) by @hds- ðŸ¤© Added as assignee" }] := by
  rw [(merge_request_notifications wMRW).2 acW rfl]
  rfl

/-- Counterexample for C7 as stated: a payload rejected by the UTF-8 parse
stage fails decoding with the distinct FromUtf8Error of line 171, not with
the single UnsupportedWebhook kind. -/
theorem decode_failure_kind_counterexample :
    process_webhook RawPayload.invalidUtf8 envOk =
      (some (Except.error WebhookError.fromUtf8), []) ∧
    WebhookError.fromUtf8 ≠ WebhookError.unsupportedWebhook :=
  ⟨rfl, by decide⟩

/-- Claim C7 amended: for every payload that survives the UTF-8 stage, any
decode failure — text that is not JSON, a missing or non-variant
discriminator, or a selected variant whose required shape does not match
(decodeWebhook none covers all of these) — collapses to the single failure
kind UnsupportedWebhook and produces no event, while a payload that is not
valid UTF-8 instead fails with the distinct propagated UTF-8 error. -/
theorem decode_failure_unsupported (env : GitlabEnv) :
    (process_webhook RawPayload.invalidJson env =
      (some (Except.error WebhookError.unsupportedWebhook), [])) ∧
    (∀ j : JsonValue, decodeWebhook j = none →
      process_webhook (RawPayload.json j) env =
        (some (Except.error WebhookError.unsupportedWebhook), [])) ∧
    (∀ j : JsonValue, j.get "object_kind" = none → decodeWebhook j = none) ∧
    (∀ (j : JsonValue) (s : String), j.get "object_kind" = some (JsonValue.str s) →
      s ≠ "merge_request" → s ≠ "pipeline" → decodeWebhook j = none) := by
  refine ⟨rfl, ?_, ?_, ?_⟩
  · intro j h
    simp [process_webhook, h]
  · intro j h
    simp [decodeWebhook, h]
  · intro j s h hs1 hs2
    unfold decodeWebhook
    rw [h]
    split <;> simp_all

/-- Witness for C7's amended claim: a concrete payload with the unrecognized
discriminator "push" collapses to UnsupportedWebhook. -/
theorem decode_failure_unsupported_witness :
    process_webhook (RawPayload.json jUnknownKind) envOk =
      (some (Except.error WebhookError.unsupportedWebhook), []) :=
  (decode_failure_unsupported envOk).2.1 jUnknownKind rfl

/-- Claim C8: the notification-producing rules never return an error —
process_merge_request is Ok on every input, and whenever process_pipeline
returns at all its result is Ok (an empty list stands for nothing to
send). -/
theorem composers_never_error :
    (∀ w : MergeRequestWebhook, ∃ msgs, process_merge_request w = Except.ok msgs) ∧
    (∀ (w : PipelineWebhook) (env : GitlabEnv) (r : Except WebhookError (List Message)),
      (process_pipeline w env).1 = some r → ∃ msgs, r = Except.ok msgs) := by
  constructor
  · intro w
    exact ⟨_, rfl⟩
  · intro w env r h
    unfold process_pipeline at h
    rcases hps : process_pipeline_status w env with ⟨o, calls⟩
    rw [hps] at h
    rcases o with _ | om
    · simp at h
    · rcases om with _ | m
      · simp at h
        exact ⟨[], h.symm⟩
      · simp at h
        exact ⟨[m], h.symm⟩

/-- Witness for C8 at concrete inputs: the merge-request composer returns Ok
on wMRW, and the pipeline composer's normal return on wNoMR is Ok. -/
theorem composers_never_error_witness :
    (∃ msgs, process_merge_request wMRW = Except.ok msgs) ∧
    (∃ msgs, (Except.ok [] : Except WebhookError (List Message)) = Except.ok msgs) :=
  ⟨composers_never_error.1 wMRW,
   composers_never_error.2 wNoMR envOk (Except.ok []) rfl⟩

/-- Claim C10: occurrences are not collapsed — for an id absent from
previous, the diff keeps exactly the occurrences current has of that id —
and the merge-request rule emits one notification per diff entry, with
recipients following the diff entries' emails (so one email can receive
several notifications from a single event). -/
theorem duplicate_assignees_preserved (w : MergeRequestWebhook) (ac : AssigneeChanges)
    (hac : w.get_assignee_changes = some ac) :
    (∀ i : Nat, (∀ p ∈ ac.previous, p.id ≠ i) →
      (get_new_assignees ac).filter (fun u => u.id == i) =
        ac.current.filter (fun u => u.id == i)) ∧
    (∃ msgs, process_merge_request w = Except.ok msgs ∧
      msgs.map Message.recipient_email = (get_new_assignees ac).map User.email) := by
  constructor
  · intro i hi
    unfold get_new_assignees
    rw [List.filter_filter]
    apply List.filter_congr
    intro u hu
    cases hid : (u.id == i) with
    | false => simp [hid]
    | true =>
      have hu_id : u.id = i := by simpa using hid
      have hc := contains_id_false ac.previous i hi u hu_id
      simp [hid, hc]
  · refine ⟨(get_new_assignees ac).filterMap (fun u => process_new_assignee u w), ?_, ?_⟩
    · simp [process_merge_request, hac]
    · generalize get_new_assignees ac = l
      induction l with
      | nil => rfl
      | cons u us ih =>
        simp [List.filterMap_cons, process_new_assignee, List.map_cons]
        exact ih

/-- Witness for C10: acDup's current holds two records with id 2, absent
from previous; both survive the diff and both notifications go to the same
email. -/
theorem duplicate_assignees_preserved_witness :
    ((get_new_assignees acDup).filter (fun u => u.id == 2) =
      acDup.current.filter (fun u => u.id == 2)) ∧
    (∃ msgs, process_merge_request wDup = Except.ok msgs ∧
      msgs.map Message.recipient_email = (get_new_assignees acDup).map User.email) ∧
    (get_new_assignees acDup).map User.email = ["b@x", "b@x"] := by
  have h := duplicate_assignees_preserved wDup acDup rfl
  refine ⟨h.1 2 ?_, h.2, by rfl⟩
  intro p hp
  simp [acDup] at hp
  subst hp
  decide

/-- The merge-request test payload of webhook.rs lines 191-220, as a JSON
value (the keys the Rust structs do not declare are ignored by serde and
exercised here as such). -/
def jMergeRequestPayload : JsonValue :=
  JsonValue.obj
    [("object_attributes", JsonValue.obj
        [("created_at", JsonValue.str "2021-09-06 10:54:57 -0500"),
         ("description", JsonValue.str ""),
         ("id", JsonValue.num 289144),
         ("iid", JsonValue.num 3),
         ("merge_error", JsonValue.null),
         ("merge_status", JsonValue.str "unchecked"),
         ("state", JsonValue.str "opened"),
         ("url", JsonValue.str "https://gitlab.com/hds-/mr-test/-/merge_requests/3"),
         ("title", JsonValue.str "Fail pipeline")]),
     ("object_kind", JsonValue.str "merge_request"),
     ("project", JsonValue.obj
        [("id", JsonValue.num 17898),
         ("name", JsonValue.str "mr-test"),
         ("path_with_namespace", JsonValue.str "hds-/mr-test"),
         ("web_url", JsonValue.str "https://gitlab.com/hds-/mr-test")]),
     ("user", JsonValue.obj
        [("email", JsonValue.str "hds@example.com"),
         ("id", JsonValue.num 1069),
         ("name", JsonValue.str "Hayden Stainsby"),
         ("username", JsonValue.str "hds-")])]

/-- Sanity of the decoder embedding, matching the expectation of the
test_deserialize_merge_request test: the test payload decodes to the fully
populated merge-request event (so the failure collapse of the claims is
not vacuous). -/
theorem decode_test_payload_ok :
    decodeWebhook jMergeRequestPayload =
      some (Webhook.mergeRequest
        { assignees := none, changes := none, merge_request := mrAttrsP,
          project := projP, user := userH }) := rfl
